import Mathlib

/-!
Shallow embedding of `pygarl/middlewares.py`: the gradient-threshold
filtering middleware (`GradientThresholdMiddleware`), the unimplemented
time-based grouper (`DelayGrouperMiddleware`), and the structures they
operate on.

Modelling conventions:
* A `Sample` is the external collaborator from `pygarl.base`: it carries its
  ordered data rows (`data : List D`, one element per row, `D` abstract) and
  its opaque gesture label (`gesture_id : G`).  The collaborator operation
  `np.average(sample.gradient())` is a derived quantity of the sample's data
  and is opaque to the middleware, so it is modelled as an arbitrary function
  `gavg : List D → ℚ` passed to `process_sample`; the middleware only ever
  consumes `|gavg sample.data|`.
* Python floats are modelled as rationals `ℚ`; the Python integer counter and
  the `sample_group_delay` limit as `ℤ`.
* The numpy buffer (`None` or an array of rows) is `Option (List D)`;
  `np.concatenate` is list append; the deep copies performed by the code
  (`np.array(..., copy=True)`, `np.copy`) are identities in a pure model.
* The stateful method `process_sample` becomes a function from the middleware
  state and a sample to the returned `Option Sample` paired with the updated
  state.
-/

/-- The external `Sample` data carrier: ordered data rows plus a gesture
label. -/
structure Sample (D G : Type) where
  data : List D
  gesture_id : G
  deriving Repr, DecidableEq

/-- State of a `GradientThresholdMiddleware` instance: the constructor
parameters (`threshold`, `group`, `sample_group_delay`) and the mutable
instance attributes (`buffer`, `sample_group_delay_counter`). -/
@[ext]
structure GradientThresholdMiddleware (D : Type) where
  threshold : ℚ
  group : Bool
  sample_group_delay : ℤ
  buffer : Option (List D)
  sample_group_delay_counter : ℤ
  deriving Repr, DecidableEq

namespace GradientThresholdMiddleware

/-- `__init__`: sets the parameters, `self.buffer = None`,
`self.sample_group_delay_counter = 0`.  (`verbose` only controls printing and
is omitted.) -/
def init (D : Type) (threshold : ℚ) (group : Bool) (sample_group_delay : ℤ) :
    GradientThresholdMiddleware D :=
  { threshold := threshold
    group := group
    sample_group_delay := sample_group_delay
    buffer := none
    sample_group_delay_counter := 0 }

/-- `add_sample_to_buffer`: if the buffer is `None` it becomes the sample's
data, otherwise the sample's data is concatenated onto it. -/
def add_sample_to_buffer {D G : Type} (m : GradientThresholdMiddleware D)
    (sample : Sample D G) : GradientThresholdMiddleware D :=
  match m.buffer with
  | none => { m with buffer := some sample.data }
  | some buf => { m with buffer := some (buf ++ sample.data) }

/-- `delete_buffer`: sets the buffer back to `None`. -/
def delete_buffer {D : Type} (m : GradientThresholdMiddleware D) :
    GradientThresholdMiddleware D :=
  { m with buffer := none }

/-- `process_sample`, translated branch for branch from the source; `gavg`
models the external collaborator `np.average(sample.gradient())`.  Returns
the emitted `Option Sample` and the updated middleware state. -/
def process_sample {D G : Type} (gavg : List D → ℚ)
    (m : GradientThresholdMiddleware D) (sample : Sample D G) :
    Option (Sample D G) × GradientThresholdMiddleware D :=
  -- average = np.absolute(np.average(sample.gradient()))
  let average : ℚ := |gavg sample.data|
  -- compute `is_allowed_to_pass` together with the counter updates
  let step : Bool × GradientThresholdMiddleware D :=
    if average ≥ m.threshold then
      (true, { m with sample_group_delay_counter := 0 })
    else
      if m.group = true ∧
          m.sample_group_delay_counter < m.sample_group_delay then
        (true, { m with sample_group_delay_counter :=
                          m.sample_group_delay_counter + 1 })
      else
        (false, m)
  let is_allowed_to_pass := step.1
  let m1 := step.2
  if is_allowed_to_pass then
    if m1.group = false then
      (some sample, m1)
    else
      (none, m1.add_sample_to_buffer sample)
  else
    if m1.group = false then
      (none, m1)
    else
      match m1.buffer with
      | some buf =>
          (some { data := buf, gesture_id := sample.gesture_id },
           m1.delete_buffer)
      | none => (none, m1)

/-- Sequential driving of the middleware: process each sample of a stream in
order, collecting the per-call results (the pipeline's call-and-return
loop). -/
def processSeq {D G : Type} (gavg : List D → ℚ)
    (m : GradientThresholdMiddleware D) :
    List (Sample D G) →
    List (Option (Sample D G)) × GradientThresholdMiddleware D
  | [] => ([], m)
  | s :: rest =>
      let r := process_sample gavg m s
      let rr := processSeq gavg r.2 rest
      (r.1 :: rr.1, rr.2)

end GradientThresholdMiddleware

/-- The fault raised by unimplemented operations (`NotImplementedError`). -/
inductive PyFault where
  | notImplementedError (msg : String)
  deriving Repr, DecidableEq

/-- State of a `DelayGrouperMiddleware`: only the configured delay. -/
structure DelayGrouperMiddleware where
  delay : ℤ
  deriving Repr, DecidableEq

namespace DelayGrouperMiddleware

/-- `process_sample` of the delay grouper: unconditionally raises
`NotImplementedError`; fallible code is modelled with `Except`. -/
def process_sample {D G : Type} (m : DelayGrouperMiddleware)
    (sample : Sample D G) :
    Except PyFault (Option (Sample D G) × DelayGrouperMiddleware) :=
  Except.error
    (PyFault.notImplementedError "DelayGrouperMiddleware is not implemented yet")

end DelayGrouperMiddleware

/-! ### Concrete evaluation fixtures

The spec's concrete scenario: threshold 10, grouping on, tolerance 2,
magnitudes `[15, 3, 4, 2]`, gesture ids `[1, 1, 1, 2]`.  Rows are single
rationals and the collaborator gradient-average reads the first row. -/

/-- A concrete collaborator gradient-average for evaluating the model on
explicit inputs: the first entry of the data row list (0 when empty). -/
def gavgHead : List ℚ → ℚ := fun l => l.headD 0

/-- Concrete sample of magnitude 15 (above threshold 10), gesture id 1. -/
def sAbove15 : Sample ℚ ℕ := { data := [15], gesture_id := 1 }

/-- Concrete sample of magnitude 3 (below threshold 10), gesture id 1. -/
def sLow3 : Sample ℚ ℕ := { data := [3], gesture_id := 1 }

/-- Concrete sample of magnitude 4 (below threshold 10), gesture id 1. -/
def sLow4 : Sample ℚ ℕ := { data := [4], gesture_id := 1 }

/-- Concrete sample of magnitude 2 (below threshold 10), gesture id 2. -/
def sLow2 : Sample ℚ ℕ := { data := [2], gesture_id := 2 }

/-! ### Branch characterizations of `process_sample` -/

namespace GradientThresholdMiddleware

variable {D G : Type}

/-- Above threshold, grouping disabled: pass-through, counter reset. -/
theorem process_above_nogroup (gavg : List D → ℚ)
    (m : GradientThresholdMiddleware D) (s : Sample D G)
    (h : m.threshold ≤ |gavg s.data|) (hg : m.group = false) :
    process_sample gavg m s =
      (some s, { m with sample_group_delay_counter := 0 }) := by
  simp [process_sample, hg, h]

/-- Above threshold, grouping enabled: suppressed, counter reset, buffered. -/
theorem process_above_group (gavg : List D → ℚ)
    (m : GradientThresholdMiddleware D) (s : Sample D G)
    (h : m.threshold ≤ |gavg s.data|) (hg : m.group = true) :
    process_sample gavg m s =
      (none,
        add_sample_to_buffer { m with sample_group_delay_counter := 0 } s) := by
  simp [process_sample, hg, h]

/-- Below threshold, grouping disabled: suppressed, state untouched. -/
theorem process_below_nogroup (gavg : List D → ℚ)
    (m : GradientThresholdMiddleware D) (s : Sample D G)
    (h : |gavg s.data| < m.threshold) (hg : m.group = false) :
    process_sample gavg m s = (none, m) := by
  simp [process_sample, hg, not_le.mpr h]

/-- Below threshold, grouping enabled, tolerance not exhausted: suppressed,
counter incremented, buffered. -/
theorem process_below_tolerated (gavg : List D → ℚ)
    (m : GradientThresholdMiddleware D) (s : Sample D G)
    (h : |gavg s.data| < m.threshold) (hg : m.group = true)
    (hc : m.sample_group_delay_counter < m.sample_group_delay) :
    process_sample gavg m s =
      (none,
        add_sample_to_buffer
          { m with sample_group_delay_counter :=
                     m.sample_group_delay_counter + 1 } s) := by
  simp [process_sample, hg, not_le.mpr h, hc]

/-- Below threshold, grouping enabled, tolerance exhausted, buffer present:
flush. -/
theorem process_below_flush (gavg : List D → ℚ)
    (m : GradientThresholdMiddleware D) (s : Sample D G) (buf : List D)
    (h : |gavg s.data| < m.threshold) (hg : m.group = true)
    (hc : ¬ m.sample_group_delay_counter < m.sample_group_delay)
    (hb : m.buffer = some buf) :
    process_sample gavg m s =
      (some { data := buf, gesture_id := s.gesture_id }, m.delete_buffer) := by
  simp [process_sample, hg, not_le.mpr h, hc, hb]

/-- Below threshold, grouping enabled, tolerance exhausted, buffer absent:
suppressed, state untouched. -/
theorem process_below_idle (gavg : List D → ℚ)
    (m : GradientThresholdMiddleware D) (s : Sample D G)
    (h : |gavg s.data| < m.threshold) (hg : m.group = true)
    (hc : ¬ m.sample_group_delay_counter < m.sample_group_delay)
    (hb : m.buffer = none) :
    process_sample gavg m s = (none, m) := by
  simp [process_sample, hg, not_le.mpr h, hc, hb]

end GradientThresholdMiddleware

/-! ### Structural lemmas about `processSeq` and state preservation -/

namespace GradientThresholdMiddleware

variable {D G : Type}

@[simp]
theorem processSeq_nil (gavg : List D → ℚ) (m : GradientThresholdMiddleware D) :
    processSeq gavg m ([] : List (Sample D G)) = ([], m) := rfl

theorem processSeq_cons (gavg : List D → ℚ) (m : GradientThresholdMiddleware D)
    (s : Sample D G) (rest : List (Sample D G)) :
    processSeq gavg m (s :: rest) =
      ((process_sample gavg m s).1 ::
         (processSeq gavg (process_sample gavg m s).2 rest).1,
       (processSeq gavg (process_sample gavg m s).2 rest).2) := rfl

theorem processSeq_append (gavg : List D → ℚ)
    (m : GradientThresholdMiddleware D) (l₁ l₂ : List (Sample D G)) :
    processSeq gavg m (l₁ ++ l₂) =
      ((processSeq gavg m l₁).1 ++
         (processSeq gavg (processSeq gavg m l₁).2 l₂).1,
       (processSeq gavg (processSeq gavg m l₁).2 l₂).2) := by
  induction l₁ generalizing m with
  | nil => simp
  | cons s rest ih =>
      simp only [List.cons_append, processSeq_cons, ih]

/-- The configuration fields are never written by `process_sample`. -/
theorem process_sample_config (gavg : List D → ℚ)
    (m : GradientThresholdMiddleware D) (s : Sample D G) :
    (process_sample gavg m s).2.threshold = m.threshold ∧
      (process_sample gavg m s).2.group = m.group ∧
      (process_sample gavg m s).2.sample_group_delay = m.sample_group_delay := by
  unfold process_sample add_sample_to_buffer delete_buffer
  dsimp only
  split <;> split <;> (try split) <;> (try split) <;> (try split) <;> simp

end GradientThresholdMiddleware

/-! ### Accumulation runs -/

namespace GradientThresholdMiddleware

variable {D G : Type}

/-- An all-above-threshold run with grouping enabled, a present buffer and a
zero counter: every call is suppressed, the data rows accumulate in arrival
order, and the counter stays zero. -/
theorem processSeq_above_run (gavg : List D → ℚ) (A : List (Sample D G)) :
    ∀ (m : GradientThresholdMiddleware D) (buf : List D),
      m.group = true → m.buffer = some buf →
      m.sample_group_delay_counter = 0 →
      (∀ a ∈ A, m.threshold ≤ |gavg a.data|) →
      processSeq gavg m A =
        (List.replicate A.length none,
         { m with buffer := some (buf ++ A.flatMap Sample.data) }) := by
  induction A with
  | nil =>
      intro m buf hg hb hc hA
      simp only [processSeq_nil, List.length_nil, List.replicate_zero,
        List.flatMap_nil, List.append_nil]
      rw [← hb]
  | cons a A ih =>
      intro m buf hg hb hc hA
      have ha : m.threshold ≤ |gavg a.data| := hA a (List.mem_cons_self a A)
      rw [processSeq_cons, process_above_group gavg m a ha hg]
      have hm0 : ({ m with sample_group_delay_counter := 0 } :
          GradientThresholdMiddleware D) = m := by
        rw [← hc]
      rw [hm0]
      have hadd : add_sample_to_buffer m a =
          { m with buffer := some (buf ++ a.data) } := by
        simp [add_sample_to_buffer, hb]
      rw [hadd]
      rw [ih { m with buffer := some (buf ++ a.data) } (buf ++ a.data)
        (by simp [hg]) (by simp) (by simp [hc])
        (fun x hx => by simpa using hA x (List.mem_cons_of_mem a hx))]
      simp [List.replicate_succ, List.append_assoc]

/-- An all-below-threshold tolerated run with grouping enabled and a present
buffer: as long as the counter has room, every call is suppressed, the data
rows accumulate in arrival order, and the counter advances by the number of
samples. -/
theorem processSeq_below_run (gavg : List D → ℚ) (B : List (Sample D G)) :
    ∀ (m : GradientThresholdMiddleware D) (buf : List D),
      m.group = true → m.buffer = some buf →
      m.sample_group_delay_counter + B.length ≤ m.sample_group_delay →
      (∀ b ∈ B, |gavg b.data| < m.threshold) →
      processSeq gavg m B =
        (List.replicate B.length none,
         { m with buffer := some (buf ++ B.flatMap Sample.data),
                  sample_group_delay_counter :=
                    m.sample_group_delay_counter + B.length }) := by
  induction B with
  | nil =>
      intro m buf hg hb hlen hB
      simp only [processSeq_nil, List.length_nil, List.replicate_zero,
        List.flatMap_nil, List.append_nil, Nat.cast_zero, add_zero]
      rw [← hb]
  | cons b B ih =>
      intro m buf hg hb hlen hB
      have hbm : |gavg b.data| < m.threshold := hB b (List.mem_cons_self b B)
      have hclt : m.sample_group_delay_counter < m.sample_group_delay := by
        simp only [List.length_cons] at hlen; omega
      rw [processSeq_cons, process_below_tolerated gavg m b hbm hg hclt]
      have hadd : add_sample_to_buffer
          { m with sample_group_delay_counter :=
                     m.sample_group_delay_counter + 1 } b =
          { m with buffer := some (buf ++ b.data),
                   sample_group_delay_counter :=
                     m.sample_group_delay_counter + 1 } := by
        simp [add_sample_to_buffer, hb]
      rw [hadd]
      rw [ih { m with buffer := some (buf ++ b.data),
                      sample_group_delay_counter :=
                        m.sample_group_delay_counter + 1 }
        (buf ++ b.data) (by simp [hg]) (by simp)
        (by simp only [List.length_cons] at hlen; dsimp only; omega)
        (fun x hx => by simpa using hB x (List.mem_cons_of_mem b hx))]
      simp only [Prod.mk.injEq]
      refine ⟨?_, ?_⟩
      · simp [List.replicate_succ]
      · ext <;> simp [List.append_assoc, List.length_cons] <;> omega

end GradientThresholdMiddleware

/-! ### Claim theorems -/

namespace GradientThresholdMiddleware

variable {D G : Type}

/-- C1: for a freshly constructed middleware with grouping enabled,
threshold `T` and tolerance limit `|B|`, a run of `|A| ≥ 1` above-threshold
samples, then `|B|` below-threshold samples, then one more below-threshold
sample `c` produces nothing for the first `|A| + |B|` calls, and on call
`|A| + |B| + 1` a single sample whose data is the concatenation, in arrival
order, of the data of all `|A| + |B|` buffered samples, with the gesture
identifier of `c`. -/
theorem C1_group_accumulate_flush (gavg : List D → ℚ) (T : ℚ)
    (A B : List (Sample D G)) (c : Sample D G) (hA : A ≠ [])
    (hAth : ∀ a ∈ A, T ≤ |gavg a.data|)
    (hBth : ∀ b ∈ B, |gavg b.data| < T)
    (hcth : |gavg c.data| < T) :
    (processSeq gavg (init D T true (B.length : ℤ)) (A ++ B ++ [c])).1 =
      List.replicate (A.length + B.length) none ++
        [some { data := (A ++ B).flatMap Sample.data,
                gesture_id := c.gesture_id }] := by
  obtain ⟨a, A', rfl⟩ := List.exists_cons_of_ne_nil hA
  have ha : T ≤ |gavg a.data| := hAth a (List.mem_cons_self a A')
  have h1 : process_sample gavg (init D T true (B.length : ℤ)) a =
      (none,
       { threshold := T, group := true,
         sample_group_delay := (B.length : ℤ),
         buffer := some a.data, sample_group_delay_counter := 0 }) := by
    rw [process_above_group gavg _ a ha rfl]
    simp [init, add_sample_to_buffer]
  have h2 : processSeq gavg
      ({ threshold := T, group := true,
         sample_group_delay := (B.length : ℤ),
         buffer := some a.data, sample_group_delay_counter := 0 } :
        GradientThresholdMiddleware D) A' =
      (List.replicate A'.length none,
       { threshold := T, group := true,
         sample_group_delay := (B.length : ℤ),
         buffer := some (a.data ++ A'.flatMap Sample.data),
         sample_group_delay_counter := 0 }) := by
    rw [processSeq_above_run gavg A' _ a.data rfl rfl rfl
      (fun x hx => hAth x (List.mem_cons_of_mem a hx))]
  have h3 : processSeq gavg
      ({ threshold := T, group := true,
         sample_group_delay := (B.length : ℤ),
         buffer := some (a.data ++ A'.flatMap Sample.data),
         sample_group_delay_counter := 0 } :
        GradientThresholdMiddleware D) B =
      (List.replicate B.length none,
       { threshold := T, group := true,
         sample_group_delay := (B.length : ℤ),
         buffer := some (a.data ++ A'.flatMap Sample.data ++
                          B.flatMap Sample.data),
         sample_group_delay_counter := 0 + (B.length : ℤ) }) := by
    rw [processSeq_below_run gavg B _ (a.data ++ A'.flatMap Sample.data)
      rfl rfl (by simp) (fun x hx => hBth x hx)]
  have h4 : process_sample gavg
      ({ threshold := T, group := true,
         sample_group_delay := (B.length : ℤ),
         buffer := some (a.data ++ A'.flatMap Sample.data ++
                          B.flatMap Sample.data),
         sample_group_delay_counter := 0 + (B.length : ℤ) } :
        GradientThresholdMiddleware D) c =
      (some { data := a.data ++ A'.flatMap Sample.data ++
                        B.flatMap Sample.data,
              gesture_id := c.gesture_id },
       delete_buffer
        { threshold := T, group := true,
          sample_group_delay := (B.length : ℤ),
          buffer := some (a.data ++ A'.flatMap Sample.data ++
                           B.flatMap Sample.data),
          sample_group_delay_counter := 0 + (B.length : ℤ) }) := by
    rw [process_below_flush gavg _ c _ hcth rfl (by simp) rfl]
  have hlist : (a :: A') ++ B ++ [c] = a :: (A' ++ (B ++ [c])) := by simp
  rw [hlist, processSeq_cons, h1]
  dsimp only
  rw [processSeq_append, h2]
  dsimp only
  rw [processSeq_append, h3]
  dsimp only
  rw [processSeq_cons, h4]
  dsimp only
  simp only [List.length_cons, List.flatMap_cons, List.flatMap_append,
    List.replicate_add, List.replicate_succ, List.append_assoc,
    List.cons_append, List.nil_append, List.singleton_append,
    processSeq_nil]

end GradientThresholdMiddleware

/-! ### Projection helpers -/

namespace GradientThresholdMiddleware

variable {D G : Type}

@[simp]
theorem init_threshold (T : ℚ) (g : Bool) (d : ℤ) :
    (init D T g d).threshold = T := rfl

@[simp]
theorem init_group (T : ℚ) (g : Bool) (d : ℤ) :
    (init D T g d).group = g := rfl

@[simp]
theorem init_delay (T : ℚ) (g : Bool) (d : ℤ) :
    (init D T g d).sample_group_delay = d := rfl

@[simp]
theorem init_buffer (T : ℚ) (g : Bool) (d : ℤ) :
    (init D T g d).buffer = none := rfl

@[simp]
theorem init_counter (T : ℚ) (g : Bool) (d : ℤ) :
    (init D T g d).sample_group_delay_counter = 0 := rfl

@[simp]
theorem add_sample_to_buffer_threshold (m : GradientThresholdMiddleware D)
    (s : Sample D G) : (m.add_sample_to_buffer s).threshold = m.threshold := by
  cases hb : m.buffer <;> simp [add_sample_to_buffer, hb]

@[simp]
theorem add_sample_to_buffer_group (m : GradientThresholdMiddleware D)
    (s : Sample D G) : (m.add_sample_to_buffer s).group = m.group := by
  cases hb : m.buffer <;> simp [add_sample_to_buffer, hb]

@[simp]
theorem add_sample_to_buffer_delay (m : GradientThresholdMiddleware D)
    (s : Sample D G) :
    (m.add_sample_to_buffer s).sample_group_delay = m.sample_group_delay := by
  cases hb : m.buffer <;> simp [add_sample_to_buffer, hb]

@[simp]
theorem add_sample_to_buffer_counter (m : GradientThresholdMiddleware D)
    (s : Sample D G) :
    (m.add_sample_to_buffer s).sample_group_delay_counter =
      m.sample_group_delay_counter := by
  cases hb : m.buffer <;> simp [add_sample_to_buffer, hb]

theorem add_sample_to_buffer_buffer_isSome (m : GradientThresholdMiddleware D)
    (s : Sample D G) : (m.add_sample_to_buffer s).buffer.isSome := by
  cases hb : m.buffer <;> simp [add_sample_to_buffer, hb]

@[simp]
theorem delete_buffer_buffer (m : GradientThresholdMiddleware D) :
    m.delete_buffer.buffer = none := rfl

@[simp]
theorem delete_buffer_counter (m : GradientThresholdMiddleware D) :
    m.delete_buffer.sample_group_delay_counter =
      m.sample_group_delay_counter := rfl

end GradientThresholdMiddleware

namespace GradientThresholdMiddleware

variable {D G : Type}

/-- Witness for C1 at the spec's concrete scenario: threshold 10, tolerance
2, magnitudes `[15, 3, 4, 2]`, gesture ids `[1, 1, 1, 2]`. -/
theorem C1_group_accumulate_flush_witness :
    ([sAbove15] : List (Sample ℚ ℕ)) ≠ [] ∧
    (∀ a ∈ ([sAbove15] : List (Sample ℚ ℕ)), (10 : ℚ) ≤ |gavgHead a.data|) ∧
    (∀ b ∈ ([sLow3, sLow4] : List (Sample ℚ ℕ)),
      |gavgHead b.data| < (10 : ℚ)) ∧
    |gavgHead sLow2.data| < (10 : ℚ) ∧
    (processSeq gavgHead
        (init ℚ 10 true (([sLow3, sLow4] : List (Sample ℚ ℕ)).length : ℤ))
        ([sAbove15] ++ [sLow3, sLow4] ++ [sLow2])).1 =
      List.replicate (([sAbove15] : List (Sample ℚ ℕ)).length +
          ([sLow3, sLow4] : List (Sample ℚ ℕ)).length) none ++
        [some { data := ([sAbove15] ++ [sLow3, sLow4]).flatMap Sample.data,
                gesture_id := sLow2.gesture_id }] :=
  ⟨by decide, by decide, by decide, by decide,
   C1_group_accumulate_flush gavgHead 10 [sAbove15] [sLow3, sLow4] sLow2
     (by decide) (by decide) (by decide) (by decide)⟩

/-- C2 counterexample: with the constructor's tolerance limit 2, a
below-threshold sample fed to a freshly constructed grouping middleware IS
buffered (the buffer does grow), and the third consecutive below-threshold
call even emits a sample, contradicting the claimed no-op loop. -/
theorem C2_below_only_noop_counterexample :
    (∀ s ∈ ([sLow3, sLow4, sLow2] : List (Sample ℚ ℕ)),
      |gavgHead s.data| < (10 : ℚ)) ∧
    (process_sample gavgHead (init ℚ 10 true 2) sLow3).2.buffer ≠ none ∧
    (processSeq gavgHead (init ℚ 10 true 2) [sLow3, sLow4, sLow2]).1 =
      [none, none, some { data := [(3 : ℚ), 4], gesture_id := 2 }] := by
  decide

/-- C2 amended: with tolerance limit 0, if no sample ever crosses the
threshold then every call to a freshly constructed grouping middleware
returns nothing and the state — in particular the absent buffer — never
changes. -/
theorem C2_below_only_noop_zero_tolerance (gavg : List D → ℚ) (T : ℚ)
    (ss : List (Sample D G)) (hss : ∀ s ∈ ss, |gavg s.data| < T) :
    processSeq gavg (init D T true 0) ss =
      (List.replicate ss.length none, init D T true 0) := by
  induction ss with
  | nil => simp
  | cons s ss ih =>
      rw [processSeq_cons,
        process_below_idle gavg _ s
          (by simpa using hss s (List.mem_cons_self s ss)) rfl
          (by simp) rfl]
      rw [ih (fun x hx => hss x (List.mem_cons_of_mem s hx))]
      simp [List.replicate_succ]

/-- Witness for the amended C2 at tolerance limit 0. -/
theorem C2_below_only_noop_zero_tolerance_witness :
    (∀ s ∈ ([sLow3, sLow4, sLow2] : List (Sample ℚ ℕ)),
      |gavgHead s.data| < (10 : ℚ)) ∧
    processSeq gavgHead (init ℚ 10 true 0) [sLow3, sLow4, sLow2] =
      (List.replicate ([sLow3, sLow4, sLow2] : List (Sample ℚ ℕ)).length none,
       init ℚ 10 true 0) :=
  ⟨by decide,
   C2_below_only_noop_zero_tolerance gavgHead 10 [sLow3, sLow4, sLow2]
     (by decide)⟩

/-- C3 counterexample: in the spec's own concrete scenario (threshold 10,
tolerance 2, magnitudes `[15, 3, 4, 2]`), the fourth call flushes — the
buffer is cleared — but the tolerance counter afterwards is 2, not 0. -/
theorem C3_flush_resets_counter_counterexample :
    (processSeq gavgHead (init ℚ 10 true 2)
        [sAbove15, sLow3, sLow4, sLow2]).1 =
      [none, none, none,
       some { data := [(15 : ℚ), 3, 4], gesture_id := 2 }] ∧
    (processSeq gavgHead (init ℚ 10 true 2)
        [sAbove15, sLow3, sLow4, sLow2]).2.buffer = none ∧
    (processSeq gavgHead (init ℚ 10 true 2)
        [sAbove15, sLow3, sLow4, sLow2]).2.sample_group_delay_counter ≠ 0 := by
  decide

/-- C3 amended: whenever a call with grouping enabled emits a sample (a
flush), the buffer is empty immediately afterwards, but the tolerance
counter is NOT reset: it keeps its pre-call value, which is at least the
tolerance limit (it returns to 0 only at the next above-threshold sample). -/
theorem C3_flush_clears_buffer_keeps_counter (gavg : List D → ℚ)
    (m : GradientThresholdMiddleware D) (s : Sample D G)
    (hg : m.group = true)
    (hemit : ((process_sample gavg m s).1).isSome = true) :
    (process_sample gavg m s).2.buffer = none ∧
    (process_sample gavg m s).2.sample_group_delay_counter =
      m.sample_group_delay_counter ∧
    m.sample_group_delay ≤ m.sample_group_delay_counter := by
  rcases le_or_lt m.threshold |gavg s.data| with hth | hth
  · rw [process_above_group gavg m s hth hg] at hemit
    simp at hemit
  · by_cases hc : m.sample_group_delay_counter < m.sample_group_delay
    · rw [process_below_tolerated gavg m s hth hg hc] at hemit
      simp at hemit
    · cases hb : m.buffer with
      | none =>
          rw [process_below_idle gavg m s hth hg hc hb] at hemit
          simp at hemit
      | some buf =>
          rw [process_below_flush gavg m s buf hth hg hc hb]
          exact ⟨rfl, rfl, not_lt.mp hc⟩

/-- Witness for the amended C3: a flushing call on a state with a full
buffer and exhausted tolerance. -/
theorem C3_flush_clears_buffer_keeps_counter_witness :
    ({ threshold := 10, group := true, sample_group_delay := 2,
       buffer := some [(15 : ℚ), 3, 4], sample_group_delay_counter := 2 } :
        GradientThresholdMiddleware ℚ).group = true ∧
    ((process_sample gavgHead
        ({ threshold := 10, group := true, sample_group_delay := 2,
           buffer := some [(15 : ℚ), 3, 4],
           sample_group_delay_counter := 2 } :
          GradientThresholdMiddleware ℚ) sLow2).1).isSome = true ∧
    ((process_sample gavgHead
        ({ threshold := 10, group := true, sample_group_delay := 2,
           buffer := some [(15 : ℚ), 3, 4],
           sample_group_delay_counter := 2 } :
          GradientThresholdMiddleware ℚ) sLow2).2.buffer = none ∧
     (process_sample gavgHead
        ({ threshold := 10, group := true, sample_group_delay := 2,
           buffer := some [(15 : ℚ), 3, 4],
           sample_group_delay_counter := 2 } :
          GradientThresholdMiddleware ℚ) sLow2).2.sample_group_delay_counter =
       ({ threshold := 10, group := true, sample_group_delay := 2,
          buffer := some [(15 : ℚ), 3, 4],
          sample_group_delay_counter := 2 } :
         GradientThresholdMiddleware ℚ).sample_group_delay_counter ∧
     ({ threshold := 10, group := true, sample_group_delay := 2,
        buffer := some [(15 : ℚ), 3, 4],
        sample_group_delay_counter := 2 } :
       GradientThresholdMiddleware ℚ).sample_group_delay ≤
       ({ threshold := 10, group := true, sample_group_delay := 2,
          buffer := some [(15 : ℚ), 3, 4],
          sample_group_delay_counter := 2 } :
         GradientThresholdMiddleware ℚ).sample_group_delay_counter) :=
  ⟨rfl, by decide,
   C3_flush_clears_buffer_keeps_counter gavgHead _ sLow2 rfl (by decide)⟩

end GradientThresholdMiddleware

namespace GradientThresholdMiddleware

variable {D G : Type}

/-- C4: every sample emitted with grouping enabled is a flush: its gesture
identifier is that of the sample whose processing triggered the flush (a
below-threshold sample seen after the tolerance was exhausted), and its data
is the buffered data, not the data of any single buffered sample. -/
theorem C4_flush_carries_trigger_gesture (gavg : List D → ℚ)
    (m : GradientThresholdMiddleware D) (s t : Sample D G)
    (hg : m.group = true)
    (ht : (process_sample gavg m s).1 = some t) :
    t.gesture_id = s.gesture_id ∧
    (∃ buf, m.buffer = some buf ∧ t.data = buf) ∧
    |gavg s.data| < m.threshold ∧
    m.sample_group_delay ≤ m.sample_group_delay_counter := by
  rcases le_or_lt m.threshold |gavg s.data| with hth | hth
  · rw [process_above_group gavg m s hth hg] at ht
    simp at ht
  · by_cases hc : m.sample_group_delay_counter < m.sample_group_delay
    · rw [process_below_tolerated gavg m s hth hg hc] at ht
      simp at ht
    · cases hb : m.buffer with
      | none =>
          rw [process_below_idle gavg m s hth hg hc hb] at ht
          simp at ht
      | some buf =>
          rw [process_below_flush gavg m s buf hth hg hc hb] at ht
          simp only [Option.some.injEq] at ht
          exact ⟨by rw [← ht], ⟨buf, rfl, by rw [← ht]⟩, hth, not_lt.mp hc⟩

/-- Witness for C4: the flushing call of the spec's concrete scenario. -/
theorem C4_flush_carries_trigger_gesture_witness :
    ({ threshold := 10, group := true, sample_group_delay := 2,
       buffer := some [(15 : ℚ), 3, 4], sample_group_delay_counter := 2 } :
        GradientThresholdMiddleware ℚ).group = true ∧
    (process_sample gavgHead
        ({ threshold := 10, group := true, sample_group_delay := 2,
           buffer := some [(15 : ℚ), 3, 4],
           sample_group_delay_counter := 2 } :
          GradientThresholdMiddleware ℚ) sLow2).1 =
      some { data := [(15 : ℚ), 3, 4], gesture_id := 2 } ∧
    (({ data := [(15 : ℚ), 3, 4], gesture_id := 2 } :
        Sample ℚ ℕ).gesture_id = sLow2.gesture_id ∧
     (∃ buf, ({ threshold := 10, group := true, sample_group_delay := 2,
                buffer := some [(15 : ℚ), 3, 4],
                sample_group_delay_counter := 2 } :
               GradientThresholdMiddleware ℚ).buffer = some buf ∧
        ({ data := [(15 : ℚ), 3, 4], gesture_id := 2 } :
          Sample ℚ ℕ).data = buf) ∧
     |gavgHead sLow2.data| <
       ({ threshold := 10, group := true, sample_group_delay := 2,
          buffer := some [(15 : ℚ), 3, 4],
          sample_group_delay_counter := 2 } :
         GradientThresholdMiddleware ℚ).threshold ∧
     ({ threshold := 10, group := true, sample_group_delay := 2,
        buffer := some [(15 : ℚ), 3, 4], sample_group_delay_counter := 2 } :
       GradientThresholdMiddleware ℚ).sample_group_delay ≤
       ({ threshold := 10, group := true, sample_group_delay := 2,
          buffer := some [(15 : ℚ), 3, 4],
          sample_group_delay_counter := 2 } :
         GradientThresholdMiddleware ℚ).sample_group_delay_counter) :=
  ⟨rfl, by decide,
   C4_flush_carries_trigger_gesture gavgHead _ sLow2
     { data := [(15 : ℚ), 3, 4], gesture_id := 2 } rfl (by decide)⟩

/-- C5: with grouping disabled, a call passes the sample through unchanged
exactly when its magnitude reaches the threshold, returns nothing when it
does not, and in both cases leaves the buffer untouched. -/
theorem C5_nogroup_identity (gavg : List D → ℚ)
    (m : GradientThresholdMiddleware D) (s : Sample D G)
    (hg : m.group = false) :
    (m.threshold ≤ |gavg s.data| → (process_sample gavg m s).1 = some s) ∧
    (|gavg s.data| < m.threshold → (process_sample gavg m s).1 = none) ∧
    (process_sample gavg m s).2.buffer = m.buffer := by
  rcases le_or_lt m.threshold |gavg s.data| with hth | hth
  · rw [process_above_nogroup gavg m s hth hg]
    exact ⟨fun _ => rfl, fun h => absurd hth (not_le.mpr h), rfl⟩
  · rw [process_below_nogroup gavg m s hth hg]
    exact ⟨fun h => absurd h (not_le.mpr hth), fun _ => rfl, rfl⟩

/-- Witness for C5: grouping disabled on the concrete fixture. -/
theorem C5_nogroup_identity_witness :
    (init ℚ 10 false 2).group = false ∧
    (((init ℚ 10 false 2).threshold ≤ |gavgHead sAbove15.data| →
        (process_sample gavgHead (init ℚ 10 false 2) sAbove15).1 =
          some sAbove15) ∧
     (|gavgHead sAbove15.data| < (init ℚ 10 false 2).threshold →
        (process_sample gavgHead (init ℚ 10 false 2) sAbove15).1 = none) ∧
     (process_sample gavgHead (init ℚ 10 false 2) sAbove15).2.buffer =
       (init ℚ 10 false 2).buffer) :=
  ⟨rfl, C5_nogroup_identity gavgHead (init ℚ 10 false 2) sAbove15 rfl⟩

/-- One call keeps the counter within `[0, sample_group_delay]`: it is reset
to 0 on an above-threshold sample and incremented only while strictly below
the limit. -/
theorem process_sample_counter_bounds (gavg : List D → ℚ)
    (m : GradientThresholdMiddleware D) (s : Sample D G)
    (h0 : 0 ≤ m.sample_group_delay_counter)
    (h1 : m.sample_group_delay_counter ≤ m.sample_group_delay) :
    0 ≤ (process_sample gavg m s).2.sample_group_delay_counter ∧
    (process_sample gavg m s).2.sample_group_delay_counter ≤
      m.sample_group_delay := by
  rcases le_or_lt m.threshold |gavg s.data| with hth | hth
  · cases hg : m.group
    · rw [process_above_nogroup gavg m s hth hg]
      exact ⟨le_refl 0, h0.trans h1⟩
    · rw [process_above_group gavg m s hth hg]
      simp only [add_sample_to_buffer_counter]
      exact ⟨le_refl 0, h0.trans h1⟩
  · cases hg : m.group
    · rw [process_below_nogroup gavg m s hth hg]
      exact ⟨h0, h1⟩
    · by_cases hc : m.sample_group_delay_counter < m.sample_group_delay
      · rw [process_below_tolerated gavg m s hth hg hc]
        simp only [add_sample_to_buffer_counter]
        constructor <;> omega
      · cases hb : m.buffer with
        | none =>
            rw [process_below_idle gavg m s hth hg hc hb]
            exact ⟨h0, h1⟩
        | some buf =>
            rw [process_below_flush gavg m s buf hth hg hc hb]
            simp only [delete_buffer_counter]
            exact ⟨h0, h1⟩

/-- A whole stream keeps the counter within `[0, sample_group_delay]`. -/
theorem processSeq_counter_bounds (gavg : List D → ℚ)
    (ss : List (Sample D G)) :
    ∀ m : GradientThresholdMiddleware D,
      0 ≤ m.sample_group_delay_counter →
      m.sample_group_delay_counter ≤ m.sample_group_delay →
      0 ≤ (processSeq gavg m ss).2.sample_group_delay_counter ∧
      (processSeq gavg m ss).2.sample_group_delay_counter ≤
        m.sample_group_delay := by
  induction ss with
  | nil => intro m h0 h1; exact ⟨h0, h1⟩
  | cons s ss ih =>
      intro m h0 h1
      rw [processSeq_cons]
      dsimp only
      have hstep := process_sample_counter_bounds gavg m s h0 h1
      have hcfg := process_sample_config gavg m s
      have hrec := ih (process_sample gavg m s).2 hstep.1
        (by rw [hcfg.2.2]; exact hstep.2)
      rw [hcfg.2.2] at hrec
      exact hrec

/-- C6: starting from construction (counter 0), after any number of calls
the tolerance counter lies in `[0, toleranceLimit]` and is never negative. -/
theorem C6_counter_invariant (gavg : List D → ℚ) (T : ℚ) (g : Bool) (d : ℤ)
    (ss : List (Sample D G)) (hd : 0 ≤ d) :
    0 ≤ (processSeq gavg (init D T g d) ss).2.sample_group_delay_counter ∧
    (processSeq gavg (init D T g d) ss).2.sample_group_delay_counter ≤ d := by
  have h := processSeq_counter_bounds gavg ss (init D T g d)
    (by simp) (by simpa using hd)
  simpa using h

/-- Witness for C6 on the spec's concrete scenario. -/
theorem C6_counter_invariant_witness :
    (0 : ℤ) ≤ 2 ∧
    (0 ≤ (processSeq gavgHead (init ℚ 10 true 2)
            [sAbove15, sLow3, sLow4, sLow2]).2.sample_group_delay_counter ∧
     (processSeq gavgHead (init ℚ 10 true 2)
        [sAbove15, sLow3, sLow4, sLow2]).2.sample_group_delay_counter ≤ 2) :=
  ⟨by decide,
   C6_counter_invariant gavgHead 10 true 2 [sAbove15, sLow3, sLow4, sLow2]
     (by decide)⟩

/-- C7: `process_sample` is total and deterministic: every call yields
exactly one of a pass-through of the input (grouping disabled), a
suppression (`none`), or a flush of the buffered data. -/
theorem C7_trichotomy (gavg : List D → ℚ)
    (m : GradientThresholdMiddleware D) (s : Sample D G) :
    (process_sample gavg m s).1 = none ∨
    ((process_sample gavg m s).1 = some s ∧ m.group = false) ∨
    (∃ buf, m.buffer = some buf ∧
      (process_sample gavg m s).1 =
        some { data := buf, gesture_id := s.gesture_id }) := by
  rcases le_or_lt m.threshold |gavg s.data| with hth | hth
  · cases hg : m.group
    · exact Or.inr (Or.inl ⟨by rw [process_above_nogroup gavg m s hth hg], rfl⟩)
    · exact Or.inl (by rw [process_above_group gavg m s hth hg])
  · cases hg : m.group
    · exact Or.inl (by rw [process_below_nogroup gavg m s hth hg])
    · by_cases hc : m.sample_group_delay_counter < m.sample_group_delay
      · exact Or.inl (by rw [process_below_tolerated gavg m s hth hg hc])
      · cases hb : m.buffer with
        | none =>
            exact Or.inl (by rw [process_below_idle gavg m s hth hg hc hb])
        | some buf =>
            exact Or.inr (Or.inr ⟨buf, rfl,
              by rw [process_below_flush gavg m s buf hth hg hc hb]⟩)

end GradientThresholdMiddleware

/-- C8: `process_sample` on `DelayGrouperMiddleware` fails with the
NotImplemented fault for every configured delay and every input sample; no
updated state is produced. -/
theorem C8_delay_grouper_raises {D G : Type} (m : DelayGrouperMiddleware)
    (s : Sample D G) :
    DelayGrouperMiddleware.process_sample m s =
      Except.error
        (PyFault.notImplementedError
          "DelayGrouperMiddleware is not implemented yet") := rfl

namespace GradientThresholdMiddleware

variable {D G : Type}

/-- One call with grouping disabled never touches the buffer. -/
theorem process_sample_nogroup_frame (gavg : List D → ℚ)
    (m : GradientThresholdMiddleware D) (s : Sample D G)
    (hg : m.group = false) :
    (process_sample gavg m s).2.buffer = m.buffer := by
  rcases le_or_lt m.threshold |gavg s.data| with hth | hth
  · rw [process_above_nogroup gavg m s hth hg]
  · rw [process_below_nogroup gavg m s hth hg]

/-- C9: with grouping disabled, no sequence of calls ever creates the
buffer: it stays at its constructed value `none` after every call. -/
theorem C9_nogroup_buffer_frame (gavg : List D → ℚ) (T : ℚ) (d : ℤ)
    (ss : List (Sample D G)) :
    (processSeq gavg (init D T false d) ss).2.buffer = none := by
  suffices h : ∀ m : GradientThresholdMiddleware D, m.group = false →
      (processSeq gavg m ss).2.buffer = m.buffer by
    simpa using h (init D T false d) rfl
  induction ss with
  | nil => intro m _; rfl
  | cons s ss ih =>
      intro m hg
      rw [processSeq_cons]
      dsimp only
      rw [ih (process_sample gavg m s).2
          (by rw [(process_sample_config gavg m s).2.1, hg]),
        process_sample_nogroup_frame gavg m s hg]

/-- C10: with grouping enabled and tolerance limit 0, a below-threshold
sample is never tolerated: the call flushes when the buffer is present,
returns nothing when it is absent, and in either case leaves the buffer
empty — so a below-threshold sample is never added to the buffer. -/
theorem C10_zero_tolerance_below (gavg : List D → ℚ)
    (m : GradientThresholdMiddleware D) (s : Sample D G)
    (hg : m.group = true) (hd : m.sample_group_delay = 0)
    (h0 : 0 ≤ m.sample_group_delay_counter)
    (hs : |gavg s.data| < m.threshold) :
    (m.buffer = none → process_sample gavg m s = (none, m)) ∧
    (∀ buf, m.buffer = some buf →
      process_sample gavg m s =
        (some { data := buf, gesture_id := s.gesture_id },
         m.delete_buffer)) ∧
    (process_sample gavg m s).2.buffer = none := by
  have hc : ¬ m.sample_group_delay_counter < m.sample_group_delay := by
    omega
  refine ⟨fun hb => process_below_idle gavg m s hs hg hc hb,
          fun buf hb => process_below_flush gavg m s buf hs hg hc hb, ?_⟩
  cases hb : m.buffer with
  | none =>
      rw [process_below_idle gavg m s hs hg hc hb]
      exact hb
  | some buf =>
      rw [process_below_flush gavg m s buf hs hg hc hb]
      rfl

/-- Witness for C10: tolerance limit 0 with a present buffer. -/
theorem C10_zero_tolerance_below_witness :
    ({ threshold := 10, group := true, sample_group_delay := 0,
       buffer := some [(3 : ℚ)], sample_group_delay_counter := 0 } :
        GradientThresholdMiddleware ℚ).group = true ∧
    ({ threshold := 10, group := true, sample_group_delay := 0,
       buffer := some [(3 : ℚ)], sample_group_delay_counter := 0 } :
        GradientThresholdMiddleware ℚ).sample_group_delay = 0 ∧
    (0 : ℤ) ≤
      ({ threshold := 10, group := true, sample_group_delay := 0,
         buffer := some [(3 : ℚ)], sample_group_delay_counter := 0 } :
          GradientThresholdMiddleware ℚ).sample_group_delay_counter ∧
    |gavgHead sLow2.data| <
      ({ threshold := 10, group := true, sample_group_delay := 0,
         buffer := some [(3 : ℚ)], sample_group_delay_counter := 0 } :
          GradientThresholdMiddleware ℚ).threshold ∧
    ((({ threshold := 10, group := true, sample_group_delay := 0,
         buffer := some [(3 : ℚ)], sample_group_delay_counter := 0 } :
          GradientThresholdMiddleware ℚ).buffer = none →
        process_sample gavgHead
          ({ threshold := 10, group := true, sample_group_delay := 0,
             buffer := some [(3 : ℚ)], sample_group_delay_counter := 0 } :
            GradientThresholdMiddleware ℚ) sLow2 =
          (none,
           { threshold := 10, group := true, sample_group_delay := 0,
             buffer := some [(3 : ℚ)], sample_group_delay_counter := 0 })) ∧
     (∀ buf, ({ threshold := 10, group := true, sample_group_delay := 0,
                buffer := some [(3 : ℚ)], sample_group_delay_counter := 0 } :
               GradientThresholdMiddleware ℚ).buffer = some buf →
        process_sample gavgHead
          ({ threshold := 10, group := true, sample_group_delay := 0,
             buffer := some [(3 : ℚ)], sample_group_delay_counter := 0 } :
            GradientThresholdMiddleware ℚ) sLow2 =
          (some { data := buf, gesture_id := sLow2.gesture_id },
           delete_buffer
             { threshold := 10, group := true, sample_group_delay := 0,
               buffer := some [(3 : ℚ)],
               sample_group_delay_counter := 0 })) ∧
     (process_sample gavgHead
        ({ threshold := 10, group := true, sample_group_delay := 0,
           buffer := some [(3 : ℚ)], sample_group_delay_counter := 0 } :
          GradientThresholdMiddleware ℚ) sLow2).2.buffer = none) :=
  ⟨rfl, rfl, by decide, by decide,
   C10_zero_tolerance_below gavgHead _ sLow2 rfl rfl (by decide) (by decide)⟩

end GradientThresholdMiddleware
